import Mathlib

/-!
Verification of the JFR constant-type serializers of
src/share/vm/jfr/recorder/checkpoint/types/jfrType.cpp (Dragonwell 8 HotSpot).

The file embeds each serializer as a Lean function over a model of the
checkpoint writer.  The writer itself (jfrCheckpointWriter) and the external
data providers (thread registry iterators, enum headers, JfrThreadGroup) are
not part of the source tree under verification; those pieces are modelled
from the specification, as marked in the individual doc comments.
-/

set_option maxHeartbeats 1000000

/-- One item appended to the checkpoint writer.  Modelled from the spec:
the writer (jfrCheckpointWriter.cpp, outside the verified sources) is an
append-only sink supporting typed scalar writes, string writes with an
explicit null representation distinct from the empty string, key writes,
a count field, space reservation, and in-place count patching.  Each
writer call is modelled as one item; the nested thread-group sub-record
emitted by the external JfrThreadGroup serializer is modelled as the
single opaque item groupChain. -/
inductive WItem where
  | reserved (size : Nat)
  | count (n : Nat)
  | key (k : Nat)
  | str (s : Option String)
  | num (v : Nat)
  | groupChain (gid : Nat)
deriving DecidableEq, Repr

/-- Modelled from the spec: a context is an immutable snapshot of the
writer cursor, taken before a serializer starts writing its pool. -/
structure JfrCheckpointContext where
  offset : Nat
deriving DecidableEq, Repr

/-- Modelled from the spec: the checkpoint writer owns a growable buffer
and a cursor; here the buffer is the list of items written so far and the
cursor is its length. -/
structure JfrCheckpointWriter where
  buf : List WItem
deriving DecidableEq, Repr

namespace JfrCheckpointWriter

/-- Modelled from the spec: context() captures the current cursor. -/
def context (w : JfrCheckpointWriter) : JfrCheckpointContext :=
  ⟨w.buf.length⟩

/-- Modelled from the spec: set_context restores a previously captured
cursor; a pure rewind that renders later items logically absent. -/
def set_context (w : JfrCheckpointWriter) (c : JfrCheckpointContext) : JfrCheckpointWriter :=
  ⟨w.buf.take c.offset⟩

/-- Modelled from the spec: reserve(size) allocates size bytes of
undefined content at the cursor and returns their start position
together with the advanced writer. -/
def reserve (w : JfrCheckpointWriter) (size : Nat) : Nat × JfrCheckpointWriter :=
  (w.buf.length, ⟨w.buf ++ [WItem.reserved size]⟩)

/-- Modelled from the spec: the one-argument write_count overload appends
a u4 count at the cursor. -/
def write_count (w : JfrCheckpointWriter) (n : Nat) : JfrCheckpointWriter :=
  ⟨w.buf ++ [WItem.count n]⟩

/-- Modelled from the spec: the two-argument write_count overload patches
the count field in place at a position previously returned by reserve;
it does not move the cursor. -/
def write_count_at (w : JfrCheckpointWriter) (n : Nat) (pos : Nat) : JfrCheckpointWriter :=
  ⟨w.buf.set pos (WItem.count n)⟩

/-- Modelled from the spec: write_key appends a key. -/
def write_key (w : JfrCheckpointWriter) (k : Nat) : JfrCheckpointWriter :=
  ⟨w.buf ++ [WItem.key k]⟩

/-- Modelled from the spec: write(const char*) appends a string, where
none models the explicit null representation. -/
def write_str (w : JfrCheckpointWriter) (s : Option String) : JfrCheckpointWriter :=
  ⟨w.buf ++ [WItem.str s]⟩

/-- Modelled from the spec: write of a numeric scalar (traceid, jlong). -/
def write_num (w : JfrCheckpointWriter) (v : Nat) : JfrCheckpointWriter :=
  ⟨w.buf ++ [WItem.num v]⟩

/-- Modelled from the spec: JfrThreadGroup::serialize(&writer, gid)
(outside the verified sources) emits the full owning-group chain as one
nested sub-record inline; modelled as a single opaque item. -/
def write_group_chain (w : JfrCheckpointWriter) (gid : Nat) : JfrCheckpointWriter :=
  ⟨w.buf ++ [WItem.groupChain gid]⟩

end JfrCheckpointWriter

/-- Modelled from the spec: one enumerated execution unit, with the
external lookups JfrThreadId::jfr_id, JfrThreadName::name,
JfrThreadId::os_id and JfrThreadId::id represented as data fields. -/
structure ThreadModel where
  isJavaThread : Bool
  jfrId : Nat
  threadName : Option String
  osId : Nat
  javaId : Nat
deriving DecidableEq, Repr

/-- Embedding of class JfrCheckpointThreadClosure (jfrType.cpp line 62):
the fields of the closure apart from the writer reference; the writer is
threaded explicitly.  The field curthread holds Thread::current() at
construction time. -/
structure JfrCheckpointThreadClosure where
  ctx : JfrCheckpointContext
  count_position : Nat
  curthread : ThreadModel
  count : Nat
deriving DecidableEq, Repr

namespace JfrCheckpointThreadClosure

/-- Embedding of the JfrCheckpointThreadClosure constructor (jfrType.cpp
line 71): captures the context, then reserves the u4 count slot, records
the current thread and starts the tally at zero. -/
def init (cur : ThreadModel) (w : JfrCheckpointWriter) :
    JfrCheckpointThreadClosure × JfrCheckpointWriter :=
  let ctx := w.context
  let r := w.reserve 4
  (⟨ctx, r.1, cur, 0⟩, r.2)

/-- Embedding of JfrCheckpointThreadClosure::do_thread (jfrType.cpp line
90).  The external group resolver JfrThreadGroup::thread_group_id is
passed as the parameter tgid taking the subject thread and the resolving
context. -/
def do_thread (tgid : ThreadModel → ThreadModel → Nat)
    (c : JfrCheckpointThreadClosure) (w : JfrCheckpointWriter) (t : ThreadModel) :
    JfrCheckpointThreadClosure × JfrCheckpointWriter :=
  let c := { c with count := c.count + 1 }
  let w := w.write_key t.jfrId
  let name := t.threadName
  let w := w.write_str name
  let w := w.write_num t.osId
  if t.isJavaThread then
    let w := w.write_str name
    let w := w.write_num t.javaId
    let w := w.write_num (tgid t c.curthread)
    (c, w)
  else
    let w := w.write_str none
    let w := w.write_num 0
    let w := w.write_num 0
    (c, w)

/-- Embedding of the JfrCheckpointThreadClosure destructor (jfrType.cpp
line 78): on a zero tally restore the captured context, otherwise patch
the reserved count slot with the tally. -/
def finalize (c : JfrCheckpointThreadClosure) (w : JfrCheckpointWriter) :
    JfrCheckpointWriter :=
  if c.count = 0 then
    w.set_context c.ctx
  else
    w.write_count_at c.count c.count_position

end JfrCheckpointThreadClosure

/-- Events observable on the surrounding VM state during
JfrThreadConstantSet::serialize: Threads_lock acquisition and release,
and updates of the skip_rank_order_check flag of the current thread. -/
inductive VMEvent where
  | acquireThreadsLock
  | releaseThreadsLock
  | setSkip (b : Bool)
deriving DecidableEq, Repr

/-- The state JfrThreadConstantSet::serialize acts on: the checkpoint
writer, the current thread's skip_rank_order_check flag, and the trace
of lock and flag events in order of occurrence. -/
structure VMState where
  writer : JfrCheckpointWriter
  skipRankOrderCheck : Bool
  trace : List VMEvent
deriving DecidableEq, Repr

namespace JfrThreadConstantSet

/-- Embedding of JfrThreadConstantSet::serialize (jfrType.cpp line 109).
The parameter assertEnabled models the ASSERT build flag guarding the
set_skip_rank_order_check calls; javathreads and nonjavathreads are the
elements yielded by the external JfrJavaThreadIterator and
JfrNonJavaThreadIterator in iteration order; cur is Thread::current().
C++ destructor order at scope exit runs the MutexLockerEx destructor
(lock release) before the closure destructor (finalize). -/
def serialize (assertEnabled : Bool) (tgid : ThreadModel → ThreadModel → Nat)
    (cur : ThreadModel) (javathreads nonjavathreads : List ThreadModel)
    (s : VMState) : VMState :=
  let p := JfrCheckpointThreadClosure.init cur s.writer
  let s := { s with writer := p.2, trace := s.trace ++ [VMEvent.acquireThreadsLock] }
  let s := if assertEnabled then
      { s with skipRankOrderCheck := true, trace := s.trace ++ [VMEvent.setSkip true] }
    else s
  let step := fun (q : JfrCheckpointThreadClosure × JfrCheckpointWriter) t =>
    JfrCheckpointThreadClosure.do_thread tgid q.1 q.2 t
  let q := javathreads.foldl step (p.1, s.writer)
  let q := nonjavathreads.foldl step q
  let s := { s with writer := q.2 }
  let s := if assertEnabled then
      { s with skipRankOrderCheck := false, trace := s.trace ++ [VMEvent.setSkip false] }
    else s
  let s := { s with trace := s.trace ++ [VMEvent.releaseThreadsLock] }
  { s with writer := JfrCheckpointThreadClosure.finalize q.1 s.writer }

end JfrThreadConstantSet

/-- The repeated static table loop shared by the enum serializers
(jfrType.cpp lines 156 to 305): write_count(nof), then for each i in
[0, nof) write_key(i) followed by the name of ordinal i.  The
name-for-ordinal lookup is the parameter toName. -/
def staticTableSerialize (nof : Nat) (toName : Nat → Option String)
    (w : JfrCheckpointWriter) : JfrCheckpointWriter :=
  (List.range nof).foldl
    (fun w i => (w.write_key i).write_str (toName i))
    (w.write_count nof)

namespace Flag

/-- Modelled from the spec: Flag::LAST_VALUE_ORIGIN of the Flag::Flags
value-origin enumeration (globals.hpp, outside the verified sources);
the spec states static enumerations carry dense ordinals in [0, N), and
the switch in jfrType.cpp line 142 names the eight origins in order, so
the last origin (INTERNAL) has ordinal 7. -/
def LAST_VALUE_ORIGIN : Nat := 7

end Flag

/-- Embedding of flag_value_origin_to_string (jfrType.cpp line 142); the
default branch is ShouldNotReachHere, modelled as none.  The ordinal
values of the Flag::Flags cases follow the dense-ordinal model noted at
Flag.LAST_VALUE_ORIGIN. -/
def flag_value_origin_to_string : Nat → Option String
  | 0 => some "Default"
  | 1 => some "Command line"
  | 2 => some "Environment variable"
  | 3 => some "Config file"
  | 4 => some "Management"
  | 5 => some "Ergonomic"
  | 6 => some "Attach on demand"
  | 7 => some "Internal"
  | _ => none

/-- Embedding of FlagValueOriginConstant::serialize (jfrType.cpp line
156) with nof_entries = Flag::LAST_VALUE_ORIGIN + 1. -/
def FlagValueOriginConstant.serialize (w : JfrCheckpointWriter) : JfrCheckpointWriter :=
  staticTableSerialize (Flag.LAST_VALUE_ORIGIN + 1) flag_value_origin_to_string w

/-- Embedding of MonitorInflateCauseConstant::serialize (jfrType.cpp
line 165); the external count ObjectSynchronizer::inflate_cause_nof and
lookup inflate_cause_name are parameters. -/
def MonitorInflateCauseConstant.serialize (nof : Nat) (toName : Nat → Option String)
    (w : JfrCheckpointWriter) : JfrCheckpointWriter :=
  staticTableSerialize nof toName w

/-- Embedding of GCCauseConstant::serialize (jfrType.cpp line 174); the
external count GCCause::_last_gc_cause and lookup GCCause::to_string are
parameters. -/
def GCCauseConstant.serialize (nof : Nat) (toName : Nat → Option String)
    (w : JfrCheckpointWriter) : JfrCheckpointWriter :=
  staticTableSerialize nof toName w

/-- Embedding of GCNameConstant::serialize (jfrType.cpp line 183). -/
def GCNameConstant.serialize (nof : Nat) (toName : Nat → Option String)
    (w : JfrCheckpointWriter) : JfrCheckpointWriter :=
  staticTableSerialize nof toName w

/-- Embedding of GCWhenConstant::serialize (jfrType.cpp line 192). -/
def GCWhenConstant.serialize (nof : Nat) (toName : Nat → Option String)
    (w : JfrCheckpointWriter) : JfrCheckpointWriter :=
  staticTableSerialize nof toName w

/-- Embedding of G1HeapRegionTypeConstant::serialize (jfrType.cpp line
201). -/
def G1HeapRegionTypeConstant.serialize (nof : Nat) (toName : Nat → Option String)
    (w : JfrCheckpointWriter) : JfrCheckpointWriter :=
  staticTableSerialize nof toName w

/-- Embedding of GCThresholdUpdaterConstant::serialize (jfrType.cpp line
210). -/
def GCThresholdUpdaterConstant.serialize (nof : Nat) (toName : Nat → Option String)
    (w : JfrCheckpointWriter) : JfrCheckpointWriter :=
  staticTableSerialize nof toName w

/-- Embedding of MetadataTypeConstant::serialize (jfrType.cpp line 219). -/
def MetadataTypeConstant.serialize (nof : Nat) (toName : Nat → Option String)
    (w : JfrCheckpointWriter) : JfrCheckpointWriter :=
  staticTableSerialize nof toName w

/-- Embedding of MetaspaceObjectTypeConstant::serialize (jfrType.cpp
line 228). -/
def MetaspaceObjectTypeConstant.serialize (nof : Nat) (toName : Nat → Option String)
    (w : JfrCheckpointWriter) : JfrCheckpointWriter :=
  staticTableSerialize nof toName w

/-- Embedding of G1YCTypeConstant::serialize (jfrType.cpp line 237): the
whole body, the count write included, sits inside an INCLUDE_ALL_GCS
preprocessor guard, modelled by the parameter includeAllGCs; with the
capability absent the function body is empty. -/
def G1YCTypeConstant.serialize (includeAllGCs : Bool) (nof : Nat)
    (toName : Nat → Option String) (w : JfrCheckpointWriter) : JfrCheckpointWriter :=
  if includeAllGCs then staticTableSerialize nof toName w else w

/-- Embedding of reference_type_to_string (jfrType.cpp line 248); the
default branch is ShouldNotReachHere, modelled as none.  The ReferenceType
ordinals REF_NONE .. REF_PHANTOM (referenceType.hpp, outside the verified
sources) follow the spec's dense-ordinal model, 0 through 5. -/
def reference_type_to_string : Nat → Option String
  | 0 => some "None reference"
  | 1 => some "Other reference"
  | 2 => some "Soft reference"
  | 3 => some "Weak reference"
  | 4 => some "Final reference"
  | 5 => some "Phantom reference"
  | _ => none

/-- Modelled from the spec: the ordinal of REF_PHANTOM, the last named
case of the dense ReferenceType enumeration embedded above. -/
def REF_PHANTOM : Nat := 5

/-- Embedding of ReferenceTypeConstant::serialize (jfrType.cpp line 262)
with nof_entries = REF_PHANTOM + 1. -/
def ReferenceTypeConstant.serialize (w : JfrCheckpointWriter) : JfrCheckpointWriter :=
  staticTableSerialize (REF_PHANTOM + 1) reference_type_to_string w

/-- Embedding of NarrowOopModeConstant::serialize (jfrType.cpp line
271); the external count Universe::HeapBasedNarrowOop + 1 and lookup
narrow_oop_mode_to_string are parameters. -/
def NarrowOopModeConstant.serialize (nof : Nat) (toName : Nat → Option String)
    (w : JfrCheckpointWriter) : JfrCheckpointWriter :=
  staticTableSerialize nof toName w

/-- Embedding of CompilerPhaseTypeConstant::serialize (jfrType.cpp line
280): the whole body, the count write included, sits inside a COMPILER2
preprocessor guard, modelled by the parameter compiler2; with the
capability absent the function body is empty. -/
def CompilerPhaseTypeConstant.serialize (compiler2 : Bool) (nof : Nat)
    (toName : Nat → Option String) (w : JfrCheckpointWriter) : JfrCheckpointWriter :=
  if compiler2 then staticTableSerialize nof toName w else w

namespace CodeBlobType

/-- Modelled from the spec: CodeBlobType::All (codeBlob.hpp, outside the
verified sources), the synthetic aggregate ordinal of the code-blob
table; within the dense ordinal space [0, N) of this build, with no
code-cache segmentation, the aggregate is ordinal 0. -/
def All : Nat := 0

/-- Modelled from the spec: CodeBlobType::NumTypes (codeBlob.hpp,
outside the verified sources).  The spec states that for every emitted
pool the count field equals the number of entries actually appended,
while this table always appends exactly one entry; in this build,
without code-cache segmentation, the cardinality constant is 1. -/
def NumTypes : Nat := 1

end CodeBlobType

/-- Embedding of CodeBlobTypeConstant::serialize (jfrType.cpp line 291):
writes count numTypes, then a single entry (CodeBlobType::All,
"CodeCache") regardless of numTypes.  The external constant
CodeBlobType::NumTypes is the parameter numTypes, instantiated with
CodeBlobType.NumTypes for this build. -/
def CodeBlobTypeConstant.serialize (numTypes : Nat)
    (w : JfrCheckpointWriter) : JfrCheckpointWriter :=
  (((w.write_count numTypes).write_key CodeBlobType.All).write_str (some "CodeCache"))

/-- Embedding of VMOperationTypeConstant::serialize (jfrType.cpp line
298); the external count VM_Operation::VMOp_Terminating and lookup
VM_Operation::name are parameters. -/
def VMOperationTypeConstant.serialize (nof : Nat) (toName : Nat → Option String)
    (w : JfrCheckpointWriter) : JfrCheckpointWriter :=
  staticTableSerialize nof toName w

/-- Embedding of JfrThreadConstant::serialize (jfrType.cpp line 311):
the single-entry self serializer; thread is the member _thread, asserted
equal to Thread::current().  For a Java thread the group id is resolved
with the thread itself as the resolving context and the external
JfrThreadGroup::serialize then emits the nested group-chain sub-record. -/
def JfrThreadConstant.serialize (tgid : ThreadModel → ThreadModel → Nat)
    (thread : ThreadModel) (w : JfrCheckpointWriter) : JfrCheckpointWriter :=
  let w := w.write_count 1
  let w := w.write_key thread.jfrId
  let name := thread.threadName
  let w := w.write_str name
  let w := w.write_num thread.osId
  if thread.isJavaThread then
    let w := w.write_str name
    let w := w.write_num thread.javaId
    let thread_group_id := tgid thread thread
    let w := w.write_num thread_group_id
    w.write_group_chain thread_group_id
  else
    let w := w.write_str none
    let w := w.write_num 0
    let w := w.write_num 0
    w

/-- Whether an item is an entry key; every entry of a pool begins with
exactly one write_key, so keys count entries. -/
def WItem.isKey : WItem → Bool
  | WItem.key _ => true
  | _ => false

/-- Number of entries present in a stretch of the buffer, counted by
their leading keys. -/
def numEntries (l : List WItem) : Nat :=
  (l.filter WItem.isKey).length

/-- The items the thread closure appends for one enumerated thread,
with cur the resolving context held by the closure. -/
def threadRecord (tgid : ThreadModel → ThreadModel → Nat)
    (cur t : ThreadModel) : List WItem :=
  WItem.key t.jfrId :: WItem.str t.threadName :: WItem.num t.osId ::
    (if t.isJavaThread then
      [WItem.str t.threadName, WItem.num t.javaId, WItem.num (tgid t cur)]
    else
      [WItem.str none, WItem.num 0, WItem.num 0])

/-- The items the thread closure appends for a list of enumerated
threads, in enumeration order. -/
def threadRecords (tgid : ThreadModel → ThreadModel → Nat)
    (cur : ThreadModel) : List ThreadModel → List WItem
  | [] => []
  | t :: rest => threadRecord tgid cur t ++ threadRecords tgid cur rest

/-- The entry items a static table writes for the given ordinals. -/
def tableEntries (toName : Nat → Option String) : List Nat → List WItem
  | [] => []
  | i :: is => WItem.key i :: WItem.str (toName i) :: tableEntries toName is

/-- The count field finally present in an emitted pool matches the
number of entries appended for it: either the serializer left the writer
untouched (no pool emitted, or rolled back), or the stretch it appended
starts with a count field equal to the number of entries following it. -/
def poolCountOk (pre post : JfrCheckpointWriter) : Prop :=
  post = pre ∨
    ∃ n rest, post.buf = pre.buf ++ WItem.count n :: rest ∧ numEntries rest = n

/-- The key carried by an item, when the item is a key. -/
def keyOf : WItem → Option Nat
  | WItem.key k => some k
  | _ => none

/-- A concrete group resolver for witness evaluation. -/
def tgid0 : ThreadModel → ThreadModel → Nat := fun _ _ => 0

/-- A concrete Java thread for witness evaluation. -/
def thread0 : ThreadModel := ⟨true, 10, some "main", 100, 1⟩

/-- A concrete native (non-Java) thread for witness evaluation. -/
def nthread0 : ThreadModel := ⟨false, 5, some "GC", 50, 0⟩

/-- A concrete initial VM state for witness evaluation. -/
def vm0 : VMState := ⟨⟨[]⟩, false, []⟩

lemma numEntries_append (l₁ l₂ : List WItem) :
    numEntries (l₁ ++ l₂) = numEntries l₁ + numEntries l₂ := by
  simp [numEntries, List.filter_append]

lemma numEntries_threadRecord (tgid : ThreadModel → ThreadModel → Nat)
    (cur t : ThreadModel) : numEntries (threadRecord tgid cur t) = 1 := by
  cases h : t.isJavaThread <;>
    simp [threadRecord, numEntries, WItem.isKey, h]

lemma numEntries_threadRecords (tgid : ThreadModel → ThreadModel → Nat)
    (cur : ThreadModel) (ts : List ThreadModel) :
    numEntries (threadRecords tgid cur ts) = ts.length := by
  induction ts with
  | nil => simp [threadRecords, numEntries]
  | cons t rest ih =>
      simp [threadRecords, numEntries_append, numEntries_threadRecord, ih]
      omega

lemma numEntries_tableEntries (toName : Nat → Option String) (l : List Nat) :
    numEntries (tableEntries toName l) = l.length := by
  induction l with
  | nil => simp [tableEntries, numEntries]
  | cons i is ih =>
      simp [tableEntries, numEntries, WItem.isKey] at ih ⊢
      omega

lemma threadRecords_append (tgid : ThreadModel → ThreadModel → Nat)
    (cur : ThreadModel) (l₁ l₂ : List ThreadModel) :
    threadRecords tgid cur (l₁ ++ l₂) =
      threadRecords tgid cur l₁ ++ threadRecords tgid cur l₂ := by
  induction l₁ with
  | nil => simp [threadRecords]
  | cons t rest ih => simp [threadRecords, ih]

lemma list_set_append_length {α : Type} (l m : List α) (a b : α) :
    (l ++ a :: m).set l.length b = l ++ b :: m := by
  induction l with
  | nil => rfl
  | cons x xs ih => simp [List.set, ih]

lemma do_thread_eq (tgid : ThreadModel → ThreadModel → Nat)
    (c : JfrCheckpointThreadClosure) (w : JfrCheckpointWriter) (t : ThreadModel) :
    JfrCheckpointThreadClosure.do_thread tgid c w t =
      ({ c with count := c.count + 1 },
        ⟨w.buf ++ threadRecord tgid c.curthread t⟩) := by
  cases h : t.isJavaThread <;>
    simp [JfrCheckpointThreadClosure.do_thread, threadRecord, h,
      JfrCheckpointWriter.write_key, JfrCheckpointWriter.write_str,
      JfrCheckpointWriter.write_num]

lemma foldl_do_thread (tgid : ThreadModel → ThreadModel → Nat)
    (ts : List ThreadModel) :
    ∀ (c : JfrCheckpointThreadClosure) (w : JfrCheckpointWriter),
      (ts.foldl (fun q t => JfrCheckpointThreadClosure.do_thread tgid q.1 q.2 t) (c, w)) =
        ({ c with count := c.count + ts.length },
          ⟨w.buf ++ threadRecords tgid c.curthread ts⟩) := by
  induction ts with
  | nil => intro c w; simp [threadRecords]
  | cons t rest ih =>
      intro c w
      rw [List.foldl_cons, do_thread_eq, ih]
      simp [threadRecords]
      omega

lemma staticLoop_buf (toName : Nat → Option String) (l : List Nat) :
    ∀ w : JfrCheckpointWriter,
      (l.foldl (fun w i => (w.write_key i).write_str (toName i)) w).buf =
        w.buf ++ tableEntries toName l := by
  induction l with
  | nil => intro w; simp [tableEntries]
  | cons i is ih =>
      intro w
      rw [List.foldl_cons, ih]
      simp [tableEntries, JfrCheckpointWriter.write_key, JfrCheckpointWriter.write_str]

lemma staticTableSerialize_buf (nof : Nat) (toName : Nat → Option String)
    (w : JfrCheckpointWriter) :
    (staticTableSerialize nof toName w).buf =
      w.buf ++ WItem.count nof :: tableEntries toName (List.range nof) := by
  rw [staticTableSerialize, staticLoop_buf]
  simp [JfrCheckpointWriter.write_count]

lemma staticTable_poolCountOk (nof : Nat) (toName : Nat → Option String)
    (w : JfrCheckpointWriter) : poolCountOk w (staticTableSerialize nof toName w) := by
  right
  exact ⟨nof, tableEntries toName (List.range nof), staticTableSerialize_buf nof toName w,
    by rw [numEntries_tableEntries]; simp⟩

lemma threadSet_writer_eq (ae : Bool) (tgid : ThreadModel → ThreadModel → Nat)
    (cur : ThreadModel) (jts njts : List ThreadModel) (s : VMState) :
    (JfrThreadConstantSet.serialize ae tgid cur jts njts s).writer =
      JfrCheckpointThreadClosure.finalize
        ⟨⟨s.writer.buf.length⟩, s.writer.buf.length, cur, jts.length + njts.length⟩
        ⟨s.writer.buf ++ WItem.reserved 4 ::
          (threadRecords tgid cur jts ++ threadRecords tgid cur njts)⟩ := by
  cases ae <;>
    simp [JfrThreadConstantSet.serialize, JfrCheckpointThreadClosure.init,
      JfrCheckpointWriter.context, JfrCheckpointWriter.reserve, foldl_do_thread]

lemma threadSet_writer_empty (ae : Bool) (tgid : ThreadModel → ThreadModel → Nat)
    (cur : ThreadModel) (s : VMState) :
    (JfrThreadConstantSet.serialize ae tgid cur [] [] s).writer = s.writer := by
  rw [threadSet_writer_eq]
  simp [JfrCheckpointThreadClosure.finalize, JfrCheckpointWriter.set_context,
    threadRecords, List.take_left]

lemma threadSet_writer_nonempty (ae : Bool) (tgid : ThreadModel → ThreadModel → Nat)
    (cur : ThreadModel) (jts njts : List ThreadModel) (s : VMState)
    (h : jts.length + njts.length ≠ 0) :
    (JfrThreadConstantSet.serialize ae tgid cur jts njts s).writer =
      ⟨s.writer.buf ++ WItem.count (jts.length + njts.length) ::
        (threadRecords tgid cur jts ++ threadRecords tgid cur njts)⟩ := by
  rw [threadSet_writer_eq]
  simp [JfrCheckpointThreadClosure.finalize, h, JfrCheckpointWriter.write_count_at,
    list_set_append_length]

lemma threadSet_trace_debug (tgid : ThreadModel → ThreadModel → Nat)
    (cur : ThreadModel) (jts njts : List ThreadModel) (s : VMState) :
    (JfrThreadConstantSet.serialize true tgid cur jts njts s).trace =
      s.trace ++ [VMEvent.acquireThreadsLock, VMEvent.setSkip true,
        VMEvent.setSkip false, VMEvent.releaseThreadsLock] := by
  simp [JfrThreadConstantSet.serialize]

lemma threadSet_skip_debug (tgid : ThreadModel → ThreadModel → Nat)
    (cur : ThreadModel) (jts njts : List ThreadModel) (s : VMState) :
    (JfrThreadConstantSet.serialize true tgid cur jts njts s).skipRankOrderCheck = false := by
  simp [JfrThreadConstantSet.serialize]

lemma selfSerialize_buf (tgid : ThreadModel → ThreadModel → Nat)
    (thread : ThreadModel) (w : JfrCheckpointWriter) :
    (JfrThreadConstant.serialize tgid thread w).buf =
      w.buf ++ WItem.count 1 :: WItem.key thread.jfrId ::
        WItem.str thread.threadName :: WItem.num thread.osId ::
        (if thread.isJavaThread then
          [WItem.str thread.threadName, WItem.num thread.javaId,
            WItem.num (tgid thread thread), WItem.groupChain (tgid thread thread)]
        else
          [WItem.str none, WItem.num 0, WItem.num 0]) := by
  cases h : thread.isJavaThread <;>
    simp [JfrThreadConstant.serialize, h, JfrCheckpointWriter.write_count,
      JfrCheckpointWriter.write_key, JfrCheckpointWriter.write_str,
      JfrCheckpointWriter.write_num, JfrCheckpointWriter.write_group_chain]

lemma filterMap_keyOf_tableEntries (toName : Nat → Option String) (l : List Nat) :
    (tableEntries toName l).filterMap keyOf = l := by
  induction l with
  | nil => simp [tableEntries]
  | cons i is ih => simp [tableEntries, List.filterMap, keyOf, ih]

lemma threadSet_poolCountOk (ae : Bool) (tgid : ThreadModel → ThreadModel → Nat)
    (cur : ThreadModel) (jts njts : List ThreadModel) (s : VMState) :
    poolCountOk s.writer (JfrThreadConstantSet.serialize ae tgid cur jts njts s).writer := by
  by_cases h : jts.length + njts.length = 0
  · left
    obtain ⟨h1, h2⟩ := Nat.add_eq_zero.mp h
    rw [List.length_eq_zero.mp h1, List.length_eq_zero.mp h2]
    exact threadSet_writer_empty ae tgid cur s
  · right
    refine ⟨jts.length + njts.length,
      threadRecords tgid cur jts ++ threadRecords tgid cur njts,
      ?_, ?_⟩
    · rw [threadSet_writer_nonempty ae tgid cur jts njts s h]
    · rw [numEntries_append, numEntries_threadRecords, numEntries_threadRecords]

lemma self_poolCountOk (tgid : ThreadModel → ThreadModel → Nat)
    (thread : ThreadModel) (w : JfrCheckpointWriter) :
    poolCountOk w (JfrThreadConstant.serialize tgid thread w) := by
  right
  refine ⟨1, _, selfSerialize_buf tgid thread w, ?_⟩
  cases h : thread.isJavaThread <;>
    simp [numEntries, WItem.isKey, h]

/-- C1: for every pool emitted by any serializer of jfrType.cpp — the
dynamic thread enumerator, which backpatches the reserved slot through
the two-argument write_count, and every static table, which writes its
count up front — the count field finally present in the pool equals the
number of entries actually appended to the writer for that pool (a
serializer that leaves the writer untouched emitted no pool). -/
theorem C1_pool_count_equals_entries :
    (∀ ae tgid cur jts njts s, poolCountOk s.writer
        (JfrThreadConstantSet.serialize ae tgid cur jts njts s).writer)
    ∧ (∀ w, poolCountOk w (FlagValueOriginConstant.serialize w))
    ∧ (∀ nof toName w, poolCountOk w (MonitorInflateCauseConstant.serialize nof toName w))
    ∧ (∀ nof toName w, poolCountOk w (GCCauseConstant.serialize nof toName w))
    ∧ (∀ nof toName w, poolCountOk w (GCNameConstant.serialize nof toName w))
    ∧ (∀ nof toName w, poolCountOk w (GCWhenConstant.serialize nof toName w))
    ∧ (∀ nof toName w, poolCountOk w (G1HeapRegionTypeConstant.serialize nof toName w))
    ∧ (∀ nof toName w, poolCountOk w (GCThresholdUpdaterConstant.serialize nof toName w))
    ∧ (∀ nof toName w, poolCountOk w (MetadataTypeConstant.serialize nof toName w))
    ∧ (∀ nof toName w, poolCountOk w (MetaspaceObjectTypeConstant.serialize nof toName w))
    ∧ (∀ b nof toName w, poolCountOk w (G1YCTypeConstant.serialize b nof toName w))
    ∧ (∀ w, poolCountOk w (ReferenceTypeConstant.serialize w))
    ∧ (∀ nof toName w, poolCountOk w (NarrowOopModeConstant.serialize nof toName w))
    ∧ (∀ b nof toName w, poolCountOk w (CompilerPhaseTypeConstant.serialize b nof toName w))
    ∧ (∀ w, poolCountOk w (CodeBlobTypeConstant.serialize CodeBlobType.NumTypes w))
    ∧ (∀ nof toName w, poolCountOk w (VMOperationTypeConstant.serialize nof toName w))
    ∧ (∀ tgid thread w, poolCountOk w (JfrThreadConstant.serialize tgid thread w)) := by
  refine ⟨threadSet_poolCountOk, ?_, ?_, ?_, ?_, ?_, ?_, ?_, ?_, ?_, ?_, ?_, ?_, ?_, ?_, ?_,
    self_poolCountOk⟩
  · exact fun w => staticTable_poolCountOk _ _ w
  · exact fun nof toName w => staticTable_poolCountOk nof toName w
  · exact fun nof toName w => staticTable_poolCountOk nof toName w
  · exact fun nof toName w => staticTable_poolCountOk nof toName w
  · exact fun nof toName w => staticTable_poolCountOk nof toName w
  · exact fun nof toName w => staticTable_poolCountOk nof toName w
  · exact fun nof toName w => staticTable_poolCountOk nof toName w
  · exact fun nof toName w => staticTable_poolCountOk nof toName w
  · exact fun nof toName w => staticTable_poolCountOk nof toName w
  · intro b nof toName w
    cases b
    · left; rfl
    · exact staticTable_poolCountOk nof toName w
  · exact fun w => staticTable_poolCountOk _ _ w
  · exact fun nof toName w => staticTable_poolCountOk nof toName w
  · intro b nof toName w
    cases b
    · left; rfl
    · exact staticTable_poolCountOk nof toName w
  · intro w
    right
    exact ⟨1, [WItem.key CodeBlobType.All, WItem.str (some "CodeCache")],
      by simp [CodeBlobTypeConstant.serialize, JfrCheckpointWriter.write_count,
        JfrCheckpointWriter.write_key, JfrCheckpointWriter.write_str, CodeBlobType.NumTypes],
      rfl⟩
  · exact fun nof toName w => staticTable_poolCountOk nof toName w

/-- C2: when the dynamic thread enumerator observes zero elements,
finalization restores the writer to the context captured before the
count slot was reserved, leaving the writer exactly at its pre-pool
state with zero residual bytes; when it observes one or more elements,
finalization patches the reserved slot with the true tally and does not
roll back. -/
theorem C2_zero_rollback_nonzero_patch :
    (∀ ae tgid cur s,
      (JfrThreadConstantSet.serialize ae tgid cur [] [] s).writer = s.writer)
    ∧ (∀ ae tgid cur jts njts s, jts.length + njts.length ≠ 0 →
      (JfrThreadConstantSet.serialize ae tgid cur jts njts s).writer =
        ⟨s.writer.buf ++ WItem.count (jts.length + njts.length) ::
          (threadRecords tgid cur jts ++ threadRecords tgid cur njts)⟩) :=
  ⟨threadSet_writer_empty, threadSet_writer_nonempty⟩

/-- Witness for C2 at a registry of one Java thread. -/
theorem C2_zero_rollback_nonzero_patch_witness :
    [thread0].length + ([] : List ThreadModel).length ≠ 0 ∧
    (JfrThreadConstantSet.serialize true tgid0 nthread0 [thread0] [] vm0).writer =
      ⟨vm0.writer.buf ++ WItem.count ([thread0].length + ([] : List ThreadModel).length) ::
        (threadRecords tgid0 nthread0 [thread0] ++ threadRecords tgid0 nthread0 [])⟩ :=
  ⟨by decide,
    C2_zero_rollback_nonzero_patch.2 true tgid0 nthread0 [thread0] [] vm0 (by decide)⟩

/-- C3 counterexample: with the optional build-time capability absent,
the gated serializers return the writer unchanged at this concrete
input — zero bytes, in particular no declared-empty count-0 pool — so
the claim that a count-0 pool is still written is false on the code:
the preprocessor guard encloses the whole serializer body including the
count write. -/
theorem C3_counterexample :
    G1YCTypeConstant.serialize false 3 (fun _ => none) ⟨[]⟩ = ⟨[]⟩
    ∧ CompilerPhaseTypeConstant.serialize false 3 (fun _ => none) ⟨[]⟩ = ⟨[]⟩
    ∧ (G1YCTypeConstant.serialize false 3 (fun _ => none) ⟨[]⟩).buf ≠ [WItem.count 0]
    ∧ (CompilerPhaseTypeConstant.serialize false 3 (fun _ => none) ⟨[]⟩).buf
        ≠ [WItem.count 0] :=
  ⟨rfl, rfl, by decide, by decide⟩

/-- C3 amended: every static table serializer gated by an optional
build-time capability, when that capability is absent, writes no bytes
at all — the writer is returned unchanged and the pool is omitted
entirely, with no declared-empty count-0 header. -/
theorem C3_amended_gated_tables_write_nothing :
    (∀ nof toName w, G1YCTypeConstant.serialize false nof toName w = w)
    ∧ (∀ nof toName w, CompilerPhaseTypeConstant.serialize false nof toName w = w) :=
  ⟨fun _ _ _ => rfl, fun _ _ _ => rfl⟩

/-- C4: a static table serializer over an enumeration of cardinality N
writes a pool of exactly N entries whose key sequence, read in pool
order, is exactly 0, 1, ..., N-1 — entry i has key i and the entries are
strictly ordered by ordinal — and it never rolls back (the pre-existing
buffer is extended, never rewound).  The code-blob table satisfies this
with its build cardinality CodeBlobType.NumTypes = 1 and the aggregate
ordinal CodeBlobType.All = 0 as its single entry. -/
theorem C4_static_tables_dense_ordinals :
    (∀ nof toName w, (staticTableSerialize nof toName w).buf =
        w.buf ++ WItem.count nof :: tableEntries toName (List.range nof))
    ∧ (∀ nof toName, numEntries (tableEntries toName (List.range nof)) = nof)
    ∧ (∀ nof toName, (tableEntries toName (List.range nof)).filterMap keyOf =
        List.range nof)
    ∧ (∀ nof toName w, (GCCauseConstant.serialize nof toName w).buf =
        w.buf ++ WItem.count nof :: tableEntries toName (List.range nof))
    ∧ (∀ w, (CodeBlobTypeConstant.serialize CodeBlobType.NumTypes w).buf =
        w.buf ++ WItem.count CodeBlobType.NumTypes ::
          tableEntries (fun _ => some "CodeCache") (List.range CodeBlobType.NumTypes)) := by
  refine ⟨staticTableSerialize_buf, ?_, ?_, staticTableSerialize_buf, ?_⟩
  · intro nof toName
    rw [numEntries_tableEntries, List.length_range]
  · intro nof toName
    exact filterMap_keyOf_tableEntries toName (List.range nof)
  · intro w
    simp [CodeBlobTypeConstant.serialize, JfrCheckpointWriter.write_count,
      JfrCheckpointWriter.write_key, JfrCheckpointWriter.write_str,
      CodeBlobType.NumTypes, CodeBlobType.All, List.range_succ, tableEntries]

/-- C5: for every element the dynamic thread enumerator visits,
do_thread appends one fixed-shape record of exactly six writer items
regardless of kind, and for a native (non-Java) element the three
managed-only fields are written as explicit sentinels — a null string
for the managed display name, zero for the managed-level id, and zero
for the owning-group id — never omitted. -/
theorem C5_fixed_shape_native_sentinels :
    ∀ tgid (c : JfrCheckpointThreadClosure) w t,
      ((JfrCheckpointThreadClosure.do_thread tgid c w t).2.buf =
        w.buf ++ threadRecord tgid c.curthread t)
      ∧ (threadRecord tgid c.curthread t).length = 6
      ∧ (t.isJavaThread = false →
          threadRecord tgid c.curthread t =
            [WItem.key t.jfrId, WItem.str t.threadName, WItem.num t.osId,
              WItem.str none, WItem.num 0, WItem.num 0]) := by
  intro tgid c w t
  refine ⟨by rw [do_thread_eq], ?_, ?_⟩
  · cases h : t.isJavaThread <;> simp [threadRecord, h]
  · intro h
    simp [threadRecord, h]

/-- Witness for C5 at a concrete native thread. -/
theorem C5_fixed_shape_native_sentinels_witness :
    nthread0.isJavaThread = false ∧
    threadRecord tgid0 thread0 nthread0 =
      [WItem.key 5, WItem.str (some "GC"), WItem.num 50,
        WItem.str none, WItem.num 0, WItem.num 0] :=
  ⟨by decide,
    (C5_fixed_shape_native_sentinels tgid0 ⟨⟨0⟩, 0, thread0, 0⟩ ⟨[]⟩ nthread0).2.2 rfl⟩

/-- C6: the dynamic thread enumerator resolves every enumerated
element's owning-group id with the calling execution context — the
curthread captured by the closure, Thread::current() — as the resolving
context, while the self serializer resolves the group id with the
subject thread itself as the resolving context. -/
theorem C6_group_resolution_contexts :
    ∀ tgid (c : JfrCheckpointThreadClosure) w t, t.isJavaThread = true →
      ((JfrCheckpointThreadClosure.do_thread tgid c w t).2.buf =
        w.buf ++ [WItem.key t.jfrId, WItem.str t.threadName, WItem.num t.osId,
          WItem.str t.threadName, WItem.num t.javaId, WItem.num (tgid t c.curthread)])
      ∧ (∀ self w2, self.isJavaThread = true →
          (JfrThreadConstant.serialize tgid self w2).buf =
            w2.buf ++ [WItem.count 1, WItem.key self.jfrId, WItem.str self.threadName,
              WItem.num self.osId, WItem.str self.threadName, WItem.num self.javaId,
              WItem.num (tgid self self), WItem.groupChain (tgid self self)]) := by
  intro tgid c w t h
  constructor
  · rw [do_thread_eq]
    simp [threadRecord, h]
  · intro self w2 hs
    rw [selfSerialize_buf]
    simp [hs]

/-- Witness for C6 at a concrete Java thread: the enumeration record
resolves the group against the closure's current thread, the self
record resolves it against the subject itself. -/
theorem C6_group_resolution_contexts_witness :
    thread0.isJavaThread = true ∧
    (JfrThreadConstant.serialize tgid0 thread0 ⟨[]⟩).buf =
      (⟨[]⟩ : JfrCheckpointWriter).buf ++
        [WItem.count 1, WItem.key thread0.jfrId, WItem.str thread0.threadName,
          WItem.num thread0.osId, WItem.str thread0.threadName, WItem.num thread0.javaId,
          WItem.num (tgid0 thread0 thread0), WItem.groupChain (tgid0 thread0 thread0)] :=
  ⟨by decide,
    (C6_group_resolution_contexts tgid0 ⟨⟨0⟩, 0, nthread0, 0⟩ ⟨[]⟩ thread0 rfl).2
      thread0 ⟨[]⟩ rfl⟩

/-- C7: the self serializer always writes a pool whose count field is
exactly 1 and never rolls back — for every calling thread, managed or
native, the pre-existing buffer is extended with a count-1 pool holding
exactly one entry. -/
theorem C7_self_count_one_no_rollback :
    ∀ tgid thread w, ∃ rest,
      (JfrThreadConstant.serialize tgid thread w).buf =
        w.buf ++ WItem.count 1 :: rest
      ∧ numEntries rest = 1 := by
  intro tgid thread w
  refine ⟨_, selfSerialize_buf tgid thread w, ?_⟩
  cases h : thread.isJavaThread <;> simp [numEntries, WItem.isKey, h]

/-- C8: the aggregate-collapsing code-blob table emits exactly one entry
— one key, the aggregate ordinal, and one name — in its pool regardless
of the underlying enumeration's cardinality numTypes. -/
theorem C8_aggregate_single_entry :
    ∀ numTypes w,
      (CodeBlobTypeConstant.serialize numTypes w).buf =
        w.buf ++ [WItem.count numTypes, WItem.key CodeBlobType.All,
          WItem.str (some "CodeCache")]
      ∧ numEntries [WItem.key CodeBlobType.All, WItem.str (some "CodeCache")] = 1 := by
  intro numTypes w
  exact ⟨by simp [CodeBlobTypeConstant.serialize, JfrCheckpointWriter.write_count,
    JfrCheckpointWriter.write_key, JfrCheckpointWriter.write_str], rfl⟩

/-- C9 counterexample: at a concrete input the debug-build event trace
of the dynamic thread enumeration is lock acquisition first, flag
suspension second — the index of the suspension event is not below the
index of the lock acquisition, so the flag is not set before the
registry lock is acquired as the claim states. -/
theorem C9_counterexample :
    (JfrThreadConstantSet.serialize true tgid0 thread0 [] [] vm0).trace =
      [VMEvent.acquireThreadsLock, VMEvent.setSkip true, VMEvent.setSkip false,
        VMEvent.releaseThreadsLock]
    ∧ ¬ ((JfrThreadConstantSet.serialize true tgid0 thread0 [] [] vm0).trace.findIdx
          (fun e => e == VMEvent.setSkip true) <
        (JfrThreadConstantSet.serialize true tgid0 thread0 [] [] vm0).trace.findIdx
          (fun e => e == VMEvent.acquireThreadsLock)) :=
  ⟨by decide, by decide⟩

/-- C9 amended: in a debug build the lock-ordering-check suspension flag
on the calling execution context is set immediately after the registry
lock is acquired (before any element is enumerated), is cleared again
after the enumeration and before the lock is released, and on the single
exit path of serialize it ends re-enabled: serialize never returns with
the check left disabled. -/
theorem C9_amended_skip_flag_scoped :
    ∀ tgid cur jts njts s,
      (JfrThreadConstantSet.serialize true tgid cur jts njts s).trace =
        s.trace ++ [VMEvent.acquireThreadsLock, VMEvent.setSkip true,
          VMEvent.setSkip false, VMEvent.releaseThreadsLock]
      ∧ (JfrThreadConstantSet.serialize true tgid cur jts njts s).skipRankOrderCheck
          = false :=
  fun tgid cur jts njts s =>
    ⟨threadSet_trace_debug tgid cur jts njts s, threadSet_skip_debug tgid cur jts njts s⟩

/-- C10: when the self serializer runs for a non-Java calling thread it
writes the null-name and zero managed-id and group-id sentinels and
emits no nested owning-group-chain sub-record at all; the inline
group-chain sub-record is present in the emitted pool if and only if
the calling thread is a Java thread. -/
theorem C10_group_chain_iff_java :
    ∀ tgid thread w,
      (thread.isJavaThread = false →
        (JfrThreadConstant.serialize tgid thread w).buf =
          w.buf ++ [WItem.count 1, WItem.key thread.jfrId, WItem.str thread.threadName,
            WItem.num thread.osId, WItem.str none, WItem.num 0, WItem.num 0])
      ∧ ((∃ g, WItem.groupChain g ∈
            (JfrThreadConstant.serialize tgid thread w).buf.drop w.buf.length)
          ↔ thread.isJavaThread = true) := by
  intro tgid thread w
  constructor
  · intro h
    rw [selfSerialize_buf]
    simp [h]
  · rw [selfSerialize_buf, List.drop_left]
    cases h : thread.isJavaThread <;> simp [h]

/-- Witness for C10 at a concrete native thread. -/
theorem C10_group_chain_iff_java_witness :
    nthread0.isJavaThread = false ∧
    (JfrThreadConstant.serialize tgid0 nthread0 ⟨[]⟩).buf =
      (⟨[]⟩ : JfrCheckpointWriter).buf ++
        [WItem.count 1, WItem.key nthread0.jfrId, WItem.str nthread0.threadName,
          WItem.num nthread0.osId, WItem.str none, WItem.num 0, WItem.num 0] :=
  ⟨by decide, (C10_group_chain_iff_java tgid0 nthread0 ⟨[]⟩).1 rfl⟩
